import Mathlib

/-!
Verification of the secret-cache Flask service (`src/main.py`).

The embedding is a direct shallow translation of the source:

* the process environment is a partial map `Env` from variable names to values;
* the external Secret Manager is a `SecretSource`, a function from resource
  names to either a payload string or an error (any exception the client or
  the UTF-8 decode may raise);
* the two module-level globals `DB_PASSWORD` / `API_KEY` form a `Cache`;
* each Flask handler becomes a pure function from `(Env, SecretSource, Cache)`
  to a `HandlerOut`: the HTTP response, the cache state after the request
  (the handlers never assign the globals, so they pass it through), and the
  list of resource names actually sent to the secret store during the request.

Python truthiness (`or`, `if not x`) on optional strings is modelled by
`pythonTruthy`: `None` and the empty string are falsy.
-/

/-- The process environment: `os.environ.get` returns a value or `none`. -/
abbrev Env := String → Option String

/-- The external secret store: one read-latest-by-resource-name operation that
either yields the decoded payload or raises (`Except.error` carries `str(e)`). -/
abbrev SecretSource := String → Except String String

/-- Python truthiness of an optional string: `None` and `""` are falsy. -/
def pythonTruthy : Option String → Bool
  | none => false
  | some s => !(s == "")

/-- Value of `os.environ.get(k, d)`. -/
def envD (env : Env) (k d : String) : String := (env k).getD d

/-- Lines 21-25 of `get_secret`:
`project_id = os.environ.get('GCP_PROJECT_ID') or os.environ.get('GOOGLE_CLOUD_PROJECT')`
followed by the `if not project_id: return None` guard.  Returns the effective
project id exactly when it is truthy. -/
def get_project_id (env : Env) : Option String :=
  let project_id :=
    if pythonTruthy (env "GCP_PROJECT_ID") then env "GCP_PROJECT_ID"
    else env "GOOGLE_CLOUD_PROJECT"
  if pythonTruthy project_id then project_id else none

/-- Line 28: `f"projects/{project_id}/secrets/{secret_name}/versions/latest"`. -/
def resource_name (project_id secret_name : String) : String :=
  "projects/" ++ project_id ++ "/secrets/" ++ secret_name ++ "/versions/latest"

/-- The `try:` block of `get_secret` (lines 20-35), together with the list of
resource names sent to the secret store.  `Except.error` is an exception
escaping the block; the early `return None` on a falsy project id happens
before any resource name is built, so its call list is empty. -/
def get_secret_try (env : Env) (src : SecretSource) (secret_name : String) :
    Except String (Option String) × List String :=
  match get_project_id env with
  | none => (Except.ok none, [])
  | some project_id =>
      let name := resource_name project_id secret_name
      match src name with
      | Except.ok secret_value => (Except.ok (some secret_value), [name])
      | Except.error e => (Except.error e, [name])

/-- `get_secret` (lines 10-39): the `try:` block with its `except Exception`
clause, which maps every escaping exception to `None`. -/
def get_secret (env : Env) (src : SecretSource) (secret_name : String) : Option String :=
  match (get_secret_try env src secret_name).1 with
  | Except.ok v => v
  | Except.error _ => none

/-- The resource names `get_secret` actually sends to the secret store. -/
def get_secret_calls (env : Env) (src : SecretSource) (secret_name : String) : List String :=
  (get_secret_try env src secret_name).2

/-- The module-level globals `DB_PASSWORD` and `API_KEY` (lines 42-43). -/
structure Cache where
  DB_PASSWORD : Option String
  API_KEY : Option String
deriving DecidableEq, Repr

/-- `initialize_secrets` (lines 45-62): one `get_secret` per slot, results
stored unconditionally. -/
def initialize_secrets (env : Env) (src : SecretSource) : Cache :=
  { DB_PASSWORD := get_secret env src "db-password"
    API_KEY := get_secret env src "api-key" }

/-- An HTTP response: status code and serialized body. -/
structure Response where
  status : Nat
  body : String
deriving DecidableEq, Repr

/-- What one handler invocation produces: the response, the cache state after
the request, and the resource names fetched from the secret store during it. -/
structure HandlerOut where
  resp : Response
  cache : Cache
  calls : List String
deriving DecidableEq, Repr

/-- JSON string literal (our literals need no escaping). -/
def jsonStr (s : String) : String := "\"" ++ s ++ "\""

/-- JSON boolean literal. -/
def jsonBool (b : Bool) : String := if b then "true" else "false"

/-- JSON object from pre-serialized field values, in source order. -/
def jsonObj (fields : List (String × String)) : String :=
  "\x7b" ++ String.intercalate ", " (fields.map (fun p => jsonStr p.1 ++ ": " ++ p.2)) ++ "\x7d"

/-- The `'✓ yes' if v else '✗ no'` indicator of the root handler. -/
def flag (v : Option String) : String :=
  if pythonTruthy v then "✓ yes" else "✗ no"

/-- The 200 body of `health_check` (lines 68-72). -/
def health_body (environment : String) : String :=
  jsonObj [("status", jsonStr "healthy"),
           ("service", jsonStr "flask-app"),
           ("environment", jsonStr environment)]

/-- `health_check` (lines 65-72): no secret-store call, globals untouched. -/
def health_check (env : Env) (src : SecretSource) (c : Cache) : HandlerOut :=
  ⟨⟨200, health_body (envD env "ENVIRONMENT" "unknown")⟩, c, []⟩

/-- The 200 body of `hello` (lines 83-89), as a function of the resolved
optional secret values. -/
def hello_body (environment : String) (db_password api_key : Option String) : String :=
  "Hello from GitHub → Cloud Build → App Engine!\n\n" ++
  "Environment: " ++ environment ++ "\n" ++
  "DB_PASSWORD loaded: " ++ flag db_password ++ "\n" ++
  "API_KEY loaded: " ++ flag api_key ++ "\n\n" ++
  "App is running in production mode with Secret Manager integration.\n"

/-- `hello` (lines 75-89), the successful path of the `try:` block.
`DB_PASSWORD or get_secret('db-password')` short-circuits: the fallback fetch
runs only when the cached slot is falsy.  The handler declares no `global`
and assigns neither slot, so the cache passes through unchanged. -/
def hello (env : Env) (src : SecretSource) (c : Cache) : HandlerOut :=
  let db_password :=
    if pythonTruthy c.DB_PASSWORD then c.DB_PASSWORD
    else get_secret env src "db-password"
  let db_calls :=
    if pythonTruthy c.DB_PASSWORD then [] else get_secret_calls env src "db-password"
  let api_key :=
    if pythonTruthy c.API_KEY then c.API_KEY
    else get_secret env src "api-key"
  let api_calls :=
    if pythonTruthy c.API_KEY then [] else get_secret_calls env src "api-key"
  ⟨⟨200, hello_body (envD env "ENVIRONMENT" "unknown") db_password api_key⟩,
   c, db_calls ++ api_calls⟩

/-- The `except` clause of `hello` (lines 91-96): a 500 with a body that does
not depend on the exception text `e`. -/
def hello_on_error (e : String) : Response :=
  ⟨500, jsonObj [("error", jsonStr "Internal server error"),
                 ("message", jsonStr "Check application logs for details")]⟩

/-- The 200 body of `api_status` (lines 103-111), as a function of the
environment string, the two `is not None` booleans, and the project id field. -/
def status_body (environment : String) (db_password_configured api_key_configured : Bool)
    (project_id : String) : String :=
  jsonObj [("status", jsonStr "operational"),
           ("environment", jsonStr environment),
           ("secrets_configured",
             jsonObj [("db_password", jsonBool db_password_configured),
                      ("api_key", jsonBool api_key_configured)]),
           ("project_id", jsonStr project_id)]

/-- `api_status` (lines 99-111), successful path: a pure read of the cache
(`DB_PASSWORD is not None`, `API_KEY is not None`), no secret-store call,
project id field from `os.environ.get('GCP_PROJECT_ID', 'not-set')` alone. -/
def api_status (env : Env) (src : SecretSource) (c : Cache) : HandlerOut :=
  ⟨⟨200, status_body (envD env "ENVIRONMENT" "unknown")
          c.DB_PASSWORD.isSome c.API_KEY.isSome
          (envD env "GCP_PROJECT_ID" "not-set")⟩,
   c, []⟩

/-- The `except` clause of `api_status` (lines 113-115): a 500 whose body is
`jsonify({"error": str(e)})` — it carries the raw exception text. -/
def api_status_on_error (e : String) : Response :=
  ⟨500, jsonObj [("error", jsonStr e)]⟩

/-- The 404 handler `not_found` (lines 118-124); the Flask error argument is
unused by the body. -/
def not_found (error : String) : Response :=
  ⟨404, jsonObj [("error", jsonStr "Not Found"),
                 ("message", jsonStr "The requested endpoint does not exist")]⟩

/-- The routing table declared by the `@app.route` decorators: the three
registered paths dispatch to their handlers, every other path falls through
to the 404 handler. -/
def route (env : Env) (src : SecretSource) (c : Cache) (path : String) : HandlerOut :=
  if path = "/" then hello env src c
  else if path = "/health" then health_check env src c
  else if path = "/api/status" then api_status env src c
  else ⟨not_found path, c, []⟩

/-- Resolution policy as claim C1 words it: use the cached slot whenever it is
non-absent (not `None`), otherwise the fresh fetch result. -/
def resolve_nonabsent (cached fetched : Option String) : Option String :=
  if cached.isSome then cached else fetched

/-- Resolution policy as the code implements it: use the cached slot when it is
truthy (present and non-empty), otherwise the fresh fetch result. -/
def resolve_truthy (cached fetched : Option String) : Option String :=
  if pythonTruthy cached then cached else fetched

/-- Concrete environment: only `GCP_PROJECT_ID` is set. -/
def envP : Env := fun k => if k = "GCP_PROJECT_ID" then some "demo-project" else none

/-- Concrete environment: only `GOOGLE_CLOUD_PROJECT` is set. -/
def envG : Env := fun k => if k = "GOOGLE_CLOUD_PROJECT" then some "demo-project" else none

/-- Concrete environment with nothing set. -/
def envNone : Env := fun _ => none

/-- Concrete secret store that answers every read with `"pw"`. -/
def srcPW : SecretSource := fun _ => Except.ok "pw"

/-- Concrete secret store whose every read raises. -/
def srcFail : SecretSource := fun _ => Except.error "boom"

/-- Concrete cache: `DB_PASSWORD` holds the empty string, `API_KEY` holds `"k"`. -/
def cacheEmptyDB : Cache := ⟨some "", some "k"⟩

/-- Concrete cache with both slots absent. -/
def cacheNone : Cache := ⟨none, none⟩

set_option maxRecDepth 16384

/-- Claim C1 (amended): secret resolution in the root handler is a fallback
read that never mutates the cache: each secret flag is computed from the
cached slot when it is truthy (present and non-empty) and otherwise from a
fresh SecretSource fetch, and every route — the three handlers and the 404
fallback — returns the cache slots exactly as it received them. -/
theorem hello_is_fallback_read_and_never_writes_cache
    (env : Env) (src : SecretSource) (c : Cache) :
    (hello env src c).cache = c ∧
    (∀ path, (route env src c path).cache = c) ∧
    (hello env src c).resp =
      ⟨200, hello_body (envD env "ENVIRONMENT" "unknown")
              (resolve_truthy c.DB_PASSWORD (get_secret env src "db-password"))
              (resolve_truthy c.API_KEY (get_secret env src "api-key"))⟩ := by
  refine ⟨rfl, ?_, rfl⟩
  intro path
  unfold route
  split
  · rfl
  · split
    · rfl
    · split <;> rfl

/-- Claim C1, counterexample to the claim as stated: with the `DB_PASSWORD`
slot holding the empty string (non-absent) and the store answering `"pw"`,
the root handler's response is not the one computed from the cached slot —
the code tests truthiness, not absence, so the fresh fetch wins. -/
theorem hello_nonabsent_resolution_refuted :
    (hello envP srcPW cacheEmptyDB).resp ≠
      ⟨200, hello_body (envD envP "ENVIRONMENT" "unknown")
              (resolve_nonabsent cacheEmptyDB.DB_PASSWORD (get_secret envP srcPW "db-password"))
              (resolve_nonabsent cacheEmptyDB.API_KEY (get_secret envP srcPW "api-key"))⟩ := by
  decide

/-- Claim C2 (amended): when both `GCP_PROJECT_ID` and `GOOGLE_CLOUD_PROJECT`
are unset, no fetch reaches the secret store, every `get_secret` returns
absent, initialization leaves both slots absent, and `GET /` then renders
both flags from absent values, whose indicator is `"✗ no"`. -/
theorem unset_project_env_means_no_fetch_and_no_flags
    (env : Env) (src : SecretSource) (secret_name : String)
    (h1 : env "GCP_PROJECT_ID" = none) (h2 : env "GOOGLE_CLOUD_PROJECT" = none) :
    get_secret_calls env src secret_name = [] ∧
    get_secret env src secret_name = none ∧
    initialize_secrets env src = ⟨none, none⟩ ∧
    (hello env src (initialize_secrets env src)).resp =
      ⟨200, hello_body (envD env "ENVIRONMENT" "unknown") none none⟩ ∧
    (hello env src (initialize_secrets env src)).calls = [] ∧
    flag none = "✗ no" := by
  have hp : get_project_id env = none := by
    simp [get_project_id, h1, h2, pythonTruthy]
  have ht : ∀ n, get_secret_try env src n = (Except.ok none, []) := fun n => by
    simp [get_secret_try, hp]
  have hg : ∀ n, get_secret env src n = none := fun n => by
    simp [get_secret, ht n]
  have hc : ∀ n, get_secret_calls env src n = [] := fun n => by
    simp [get_secret_calls, ht n]
  have hi : initialize_secrets env src = ⟨none, none⟩ := by
    simp [initialize_secrets, hg]
  refine ⟨hc _, hg _, hi, ?_, ?_, rfl⟩
  · simp [hello, hi, hg, pythonTruthy]
  · simp [hello, hi, hg, hc, pythonTruthy]

/-- Claim C2, witness: the amended theorem applied to the empty environment. -/
theorem unset_project_env_means_no_fetch_and_no_flags_witness :
    get_secret_calls envNone srcPW "db-password" = [] ∧
    get_secret envNone srcPW "db-password" = none ∧
    initialize_secrets envNone srcPW = ⟨none, none⟩ ∧
    (hello envNone srcPW (initialize_secrets envNone srcPW)).resp =
      ⟨200, hello_body (envD envNone "ENVIRONMENT" "unknown") none none⟩ ∧
    (hello envNone srcPW (initialize_secrets envNone srcPW)).calls = [] ∧
    flag none = "✗ no" :=
  unset_project_env_means_no_fetch_and_no_flags envNone srcPW "db-password" rfl rfl

/-- Claim C2, counterexample to the claim as stated: with `GCP_PROJECT_ID`
unset but `GOOGLE_CLOUD_PROJECT` set, `get_secret` does build a resource name
and reach the store, the slots resolve to present values, and `GET /` reports
both flags as yes. -/
theorem gcp_unset_but_google_set_reaches_network :
    envG "GCP_PROJECT_ID" = none ∧
    get_secret_calls envG srcPW "db-password" =
      ["projects/demo-project/secrets/db-password/versions/latest"] ∧
    get_secret envG srcPW "db-password" = some "pw" ∧
    (hello envG srcPW (initialize_secrets envG srcPW)).resp =
      ⟨200, hello_body "unknown" (some "pw") (some "pw")⟩ := by
  decide

/-- Claim C3: the `secrets_configured` booleans of `GET /api/status` are a
pure read of the cache (`isSome` per slot): the handler makes no secret-store
call, leaves the cache unchanged, its output is the same for every secret
store, and an absent slot yields `false` in the body no matter what a fresh
fetch would return. -/
theorem api_status_is_pure_cache_read
    (env : Env) (src src' : SecretSource) (c : Cache) :
    (api_status env src c).calls = [] ∧
    (api_status env src c).cache = c ∧
    api_status env src c = api_status env src' c ∧
    (api_status env src c).resp =
      ⟨200, status_body (envD env "ENVIRONMENT" "unknown")
              c.DB_PASSWORD.isSome c.API_KEY.isSome
              (envD env "GCP_PROJECT_ID" "not-set")⟩ ∧
    (api_status env src ⟨none, c.API_KEY⟩).resp =
      ⟨200, status_body (envD env "ENVIRONMENT" "unknown")
              false c.API_KEY.isSome
              (envD env "GCP_PROJECT_ID" "not-set")⟩ ∧
    (api_status env src ⟨c.DB_PASSWORD, none⟩).resp =
      ⟨200, status_body (envD env "ENVIRONMENT" "unknown")
              c.DB_PASSWORD.isSome false
              (envD env "GCP_PROJECT_ID" "not-set")⟩ :=
  ⟨rfl, rfl, rfl, rfl, rfl, rfl⟩

/-- Claim C4: every exception escaping the `try:` block of `get_secret` is
caught and mapped to the absent value, and every successful outcome is passed
through — no exception propagates to the caller. -/
theorem get_secret_never_propagates
    (env : Env) (src : SecretSource) (secret_name : String) :
    (∀ e, (get_secret_try env src secret_name).1 = Except.error e →
      get_secret env src secret_name = none) ∧
    (∀ v, (get_secret_try env src secret_name).1 = Except.ok v →
      get_secret env src secret_name = v) := by
  constructor
  · intro e he
    unfold get_secret
    rw [he]
  · intro v hv
    unfold get_secret
    rw [hv]

/-- Claim C4, witness: a store whose every read raises still makes
`get_secret` return the absent value. -/
theorem get_secret_never_propagates_witness :
    get_secret envP srcFail "db-password" = none :=
  (get_secret_never_propagates envP srcFail "db-password").1 "boom" (by rfl)

/-- Claim C5: `GET /health` always answers 200 with a body whose `status`
field is `"healthy"`, makes no secret-store call, leaves the cache unchanged,
and its response is the same for every secret store and cache state; only the
`ENVIRONMENT` variable (defaulting to `"unknown"`) varies the body. -/
theorem health_check_always_healthy
    (env env' : Env) (src src' : SecretSource) (c c' : Cache)
    (h : env "ENVIRONMENT" = env' "ENVIRONMENT") :
    health_check env src c =
      ⟨⟨200, health_body (envD env "ENVIRONMENT" "unknown")⟩, c, []⟩ ∧
    health_body (envD env "ENVIRONMENT" "unknown") =
      "\x7b\"status\": \"healthy\", \"service\": \"flask-app\", \"environment\": \"" ++
        envD env "ENVIRONMENT" "unknown" ++ "\"\x7d" ∧
    (health_check env src c).calls = [] ∧
    (health_check env src c).resp = (health_check env' src' c').resp := by
  refine ⟨rfl, ?_, rfl, ?_⟩
  · apply String.ext
    simp [health_body, jsonObj, jsonStr, String.intercalate, String.intercalate.go,
          String.data_append, List.append_assoc]
  · simp [health_check, envD, h]

/-- Claim C5, witness: the theorem applied to the empty environment, a store
that always raises, and two different cache states. -/
theorem health_check_always_healthy_witness :
    health_check envNone srcPW cacheNone =
      ⟨⟨200, health_body (envD envNone "ENVIRONMENT" "unknown")⟩, cacheNone, []⟩ ∧
    health_body (envD envNone "ENVIRONMENT" "unknown") =
      "\x7b\"status\": \"healthy\", \"service\": \"flask-app\", \"environment\": \"" ++
        envD envNone "ENVIRONMENT" "unknown" ++ "\"\x7d" ∧
    (health_check envNone srcPW cacheNone).calls = [] ∧
    (health_check envNone srcPW cacheNone).resp =
      (health_check envNone srcFail cacheEmptyDB).resp :=
  health_check_always_healthy envNone envNone srcPW srcFail cacheNone cacheEmptyDB rfl

/-- Claim C6: the root handler's `except` clause answers 500 with a fixed
generic JSON body: the response is one constant, independent of the caught
exception's text, which therefore never appears in it. -/
theorem hello_error_response_is_generic (e : String) :
    hello_on_error e =
      ⟨500, "\x7b\"error\": \"Internal server error\", \"message\": \"Check application logs for details\"\x7d"⟩ ∧
    hello_on_error e = hello_on_error "" :=
  ⟨rfl, rfl⟩

/-- Claim C7: the `/api/status` `except` clause answers 500 with a JSON body
that embeds the caught exception's raw text, unlike the root handler's
generic body. -/
theorem api_status_error_leaks_raw_message (e : String) :
    (api_status_on_error e).status = 500 ∧
    (api_status_on_error e).body = "\x7b\"error\": \"" ++ e ++ "\"\x7d" ∧
    (api_status_on_error "boom").body ≠ (hello_on_error "boom").body := by
  refine ⟨rfl, ?_, by decide⟩
  apply String.ext
  simp [api_status_on_error, jsonObj, jsonStr, String.intercalate, String.intercalate.go,
        String.data_append, List.append_assoc]

/-- Claim C8: every path other than the three registered routes falls through
to the 404 handler, whose response is exactly the fixed Not Found JSON body,
with the cache untouched and no secret-store call. -/
theorem unmatched_route_returns_404
    (env : Env) (src : SecretSource) (c : Cache) (path : String)
    (h1 : path ≠ "/") (h2 : path ≠ "/health") (h3 : path ≠ "/api/status") :
    route env src c path =
      ⟨⟨404, "\x7b\"error\": \"Not Found\", \"message\": \"The requested endpoint does not exist\"\x7d"⟩,
       c, []⟩ := by
  unfold route
  rw [if_neg h1, if_neg h2, if_neg h3]
  rfl

/-- Claim C8, witness: `GET /nope` with an empty environment and cache. -/
theorem unmatched_route_returns_404_witness :
    route envNone srcPW cacheNone "/nope" =
      ⟨⟨404, "\x7b\"error\": \"Not Found\", \"message\": \"The requested endpoint does not exist\"\x7d"⟩,
       cacheNone, []⟩ :=
  unmatched_route_returns_404 envNone srcPW cacheNone "/nope"
    (by decide) (by decide) (by decide)

/-- Claim C9 (amended): when the `DB_PASSWORD` slot holds the empty string,
the root handler treats it as absent for resolution — it performs the
fallback fetch and renders the flag from the fallback result (so `"✗ no"`
exactly when that result is falsy) — while `/api/status` reports the
`db_password` boolean as `true` for the same cache state. -/
theorem empty_slot_falls_back_while_status_reports_true
    (env : Env) (src : SecretSource) (c : Cache)
    (h : c.DB_PASSWORD = some "") :
    (hello env src c).resp =
      ⟨200, hello_body (envD env "ENVIRONMENT" "unknown")
              (get_secret env src "db-password")
              (resolve_truthy c.API_KEY (get_secret env src "api-key"))⟩ ∧
    (hello env src c).calls =
      get_secret_calls env src "db-password" ++
        (if pythonTruthy c.API_KEY then [] else get_secret_calls env src "api-key") ∧
    (api_status env src c).resp =
      ⟨200, status_body (envD env "ENVIRONMENT" "unknown")
              true c.API_KEY.isSome
              (envD env "GCP_PROJECT_ID" "not-set")⟩ := by
  have hT : pythonTruthy c.DB_PASSWORD = false := by rw [h]; rfl
  refine ⟨?_, ?_, ?_⟩
  · simp [hello, hT, resolve_truthy]
  · simp [hello, hT]
  · simp [api_status, h]

/-- Claim C9, witness: the amended theorem at an environment with a project
id, a store answering `"pw"`, and the empty-string `DB_PASSWORD` slot. -/
theorem empty_slot_falls_back_while_status_reports_true_witness :
    (hello envP srcPW cacheEmptyDB).resp =
      ⟨200, hello_body (envD envP "ENVIRONMENT" "unknown")
              (get_secret envP srcPW "db-password")
              (resolve_truthy cacheEmptyDB.API_KEY (get_secret envP srcPW "api-key"))⟩ ∧
    (hello envP srcPW cacheEmptyDB).calls =
      get_secret_calls envP srcPW "db-password" ++
        (if pythonTruthy cacheEmptyDB.API_KEY then []
         else get_secret_calls envP srcPW "api-key") ∧
    (api_status envP srcPW cacheEmptyDB).resp =
      ⟨200, status_body (envD envP "ENVIRONMENT" "unknown")
              true cacheEmptyDB.API_KEY.isSome
              (envD envP "GCP_PROJECT_ID" "not-set")⟩ :=
  empty_slot_falls_back_while_status_reports_true envP srcPW cacheEmptyDB rfl

/-- Claim C9, counterexample to the claim as stated: with the `DB_PASSWORD`
slot holding the empty string and the fallback fetch answering `"pw"`, the
root handler renders the `"✓ yes"` flag, not the `"✗ no"` the claim asserts. -/
theorem empty_slot_can_report_yes :
    cacheEmptyDB.DB_PASSWORD = some "" ∧
    (hello envP srcPW cacheEmptyDB).resp =
      ⟨200, hello_body "unknown" (some "pw") (some "k")⟩ ∧
    flag (some "pw") = "✓ yes" ∧
    ("✓ yes" : String) ≠ "✗ no" := by
  decide

/-- Claim C10: the `project_id` field of `/api/status` reads only
`GCP_PROJECT_ID` (defaulting to `"not-set"`), while `get_secret` also accepts
`GOOGLE_CLOUD_PROJECT`: with the former unset and the latter set non-empty,
the status body says `"not-set"` even though every fetch addresses the
`GOOGLE_CLOUD_PROJECT` project. -/
theorem status_project_id_ignores_google_cloud_project
    (env : Env) (src : SecretSource) (c : Cache) (p : String)
    (h1 : env "GCP_PROJECT_ID" = none)
    (h2 : env "GOOGLE_CLOUD_PROJECT" = some p) (h3 : p ≠ "") :
    (api_status env src c).resp =
      ⟨200, status_body (envD env "ENVIRONMENT" "unknown")
              c.DB_PASSWORD.isSome c.API_KEY.isSome "not-set"⟩ ∧
    get_project_id env = some p ∧
    (∀ secret_name, get_secret_calls env src secret_name =
      [resource_name p secret_name]) := by
  have hD : envD env "GCP_PROJECT_ID" "not-set" = "not-set" := by simp [envD, h1]
  have hp : get_project_id env = some p := by
    simp [get_project_id, h1, h2, pythonTruthy, h3]
  refine ⟨?_, hp, ?_⟩
  · simp [api_status, hD]
  · intro secret_name
    unfold get_secret_calls get_secret_try
    rw [hp]
    cases hsrc : src (resource_name p secret_name) <;> simp [hsrc]

/-- Claim C10, witness: the theorem at the environment with only
`GOOGLE_CLOUD_PROJECT` set, specialized to the `db-password` fetch. -/
theorem status_project_id_ignores_google_cloud_project_witness :
    (api_status envG srcPW cacheNone).resp =
      ⟨200, status_body (envD envG "ENVIRONMENT" "unknown")
              cacheNone.DB_PASSWORD.isSome cacheNone.API_KEY.isSome "not-set"⟩ ∧
    get_project_id envG = some "demo-project" ∧
    get_secret_calls envG srcPW "db-password" =
      [resource_name "demo-project" "db-password"] :=
  ⟨(status_project_id_ignores_google_cloud_project envG srcPW cacheNone "demo-project"
      rfl rfl (by decide)).1,
   (status_project_id_ignores_google_cloud_project envG srcPW cacheNone "demo-project"
      rfl rfl (by decide)).2.1,
   (status_project_id_ignores_google_cloud_project envG srcPW cacheNone "demo-project"
      rfl rfl (by decide)).2.2 "db-password"⟩
